import Mathlib

/-!
Shallow embedding of src/src/notion/__init__.py, the single source file of
the Auto-GPT-Notion plugin, together with theorems about its specified
behaviour. Python methods on the adapter class become Lean functions taking
the adapter record as first argument; methods that assign no attribute of
self leave the record untouched. Environment access is made explicit: the
constructor is a function of the process environment that also returns the
list of keys it read. Exceptions raised by external collaborators are
modelled with Except in the starred variants.
-/

/-- Translation of the Message TypedDict (lines 16-18 of the source). -/
structure Message where
  role : String
  content : String
deriving Repr, DecidableEq

/-- References to the five handler functions that post_prompt imports from
the sibling module .notion (lines 65-71). That module is outside the
provided source; the handlers are opaque references here, exactly as the
adapter treats them. -/
inductive HandlerRef where
  | create_page
  | get_all_pages
  | append_page
  | retrieve_page
  | update_page_properties
deriving Repr, DecidableEq

/-- One add_command registration as the adapter issues it: name,
description, argument template (an association list, preserving the
insertion order of the Python dict literal), and handler reference. -/
structure CommandRegistration where
  name : String
  description : String
  args : List (String × String)
  handler : HandlerRef
deriving Repr, DecidableEq

/-- Model of the external notion_client.Client: the constructor call
Client(auth=self.notion_token) (line 33) stores the token it is given. -/
structure Client where
  auth : Option String
deriving Repr, DecidableEq

/-- The adapter state: the six attributes assigned in __init__
(lines 26-33). No other attribute is ever assigned by the class. -/
structure AutoGPTNotion where
  _name : String
  _version : String
  _description : String
  notion_token : Option String
  database_id : Option String
  notion : Client
deriving Repr, DecidableEq

/-- The process environment, as queried by os.getenv. -/
abbrev Env := String → Option String

/-- os.getenv with an explicit read trace: returns the value of the key
together with the singleton list of keys read. -/
def getenv (env : Env) (key : String) : Option String × List String :=
  (env key, [key])

/-- Translation of __init__ (lines 26-33): reads NOTION_TOKEN and
NOTION_DATABASE_ID from the environment, stores both verbatim, and
instantiates the client with the token. Returns the constructed adapter
together with the trace of environment keys read. -/
def AutoGPTNotion.init (env : Env) : AutoGPTNotion × List String :=
  let t := getenv env "NOTION_TOKEN"
  let d := getenv env "NOTION_DATABASE_ID"
  ({ _name := "autogpt-notion"
   , _version := "0.1.0"
   , _description := "Notion API integrations using notion-sdk-py"
   , notion_token := t.1
   , database_id := d.1
   , notion := { auth := t.1 } }, t.2 ++ d.2)

/-- can_handle_on_response (lines 35-41): returns False. -/
def AutoGPTNotion.can_handle_on_response (_self : AutoGPTNotion) : Bool :=
  false

/-- on_response (lines 43-45): the body is pass, so the method returns
None for every input. -/
def AutoGPTNotion.on_response (_self : AutoGPTNotion) (_response : String) :
    Option String :=
  none

/-- can_handle_post_prompt (lines 47-53): returns True. -/
def AutoGPTNotion.can_handle_post_prompt (_self : AutoGPTNotion) : Bool :=
  true

/-- Translation of post_prompt (lines 55-114), generic in the host-owned
prompt object: the host supplies the prompt value and its add_command
operation, and the method issues five add_command calls in source order and
returns the threaded prompt. The argument templates are the exact dict
literals of the source. -/
def AutoGPTNotion.post_prompt {P : Type}
    (add_command : P → String → String → List (String × String) → HandlerRef → P)
    (_self : AutoGPTNotion) (prompt : P) : P :=
  let prompt := add_command prompt "notion_create_page"
    "Create a new Notion page"
    [("title", "<title>"), ("summary", "<summary>"),
     ("tags", "<list_of_tags>"), ("content", "<content>")]
    HandlerRef.create_page
  let prompt := add_command prompt "notion_get_all_pages"
    "Retrieves all pages properties from a database"
    []
    HandlerRef.get_all_pages
  let prompt := add_command prompt "notion_append_page"
    "Append page content by id"
    [("page_id", "<page_id>"), ("content", "<content>")]
    HandlerRef.append_page
  let prompt := add_command prompt "notion_retrieve_page"
    "Retrieves a page\x27s properties and content by id"
    [("page_id", "<page_id>")]
    HandlerRef.retrieve_page
  let prompt := add_command prompt "notion_update_page_properties"
    "Update a page\x27s properties by id"
    [("page_id", "<page_id>"), ("title", "<title>"),
     ("summary", "<summary>"), ("tags", "<list_of_tags>")]
    HandlerRef.update_page_properties
  prompt

/-- Model of the host-owned prompt generator: the registry of commands the
host accumulates through add_command, plus the rest of the prompt state,
opaque to this adapter. -/
structure PromptGenerator (α : Type) where
  commands : List CommandRegistration
  rest : α

/-- Model of the host prompt object\x27s add_command: appends one command
descriptor to the host-owned registry and touches nothing else. -/
def PromptGenerator.add_command {α : Type} (p : PromptGenerator α)
    (name description : String) (args : List (String × String))
    (handler : HandlerRef) : PromptGenerator α :=
  { p with commands := p.commands ++ [⟨name, description, args, handler⟩] }

/-- The trace of add_command registrations post_prompt issues, obtained by
running the translated method with a registration-collecting add_command. -/
def postPromptTrace (self : AutoGPTNotion) : List CommandRegistration :=
  AutoGPTNotion.post_prompt
    (fun l n d a h => l ++ [⟨n, d, a, h⟩]) self []

/-- can_handle_on_planning (lines 116-122): returns False. -/
def AutoGPTNotion.can_handle_on_planning (_self : AutoGPTNotion) : Bool :=
  false

/-- on_planning (lines 124-133): body is pass, returns None. -/
def AutoGPTNotion.on_planning {Val : Type} (_self : AutoGPTNotion)
    (_prompt : PromptGenerator Val) (_messages : List Message) :
    Option String :=
  none

/-- can_handle_post_planning (lines 135-141): returns False. -/
def AutoGPTNotion.can_handle_post_planning (_self : AutoGPTNotion) : Bool :=
  false

/-- post_planning (lines 143-152): body is pass, returns None. -/
def AutoGPTNotion.post_planning (_self : AutoGPTNotion) (_response : String) :
    Option String :=
  none

/-- can_handle_pre_instruction (lines 154-160): returns False. -/
def AutoGPTNotion.can_handle_pre_instruction (_self : AutoGPTNotion) : Bool :=
  false

/-- pre_instruction (lines 162-171): body is pass, returns None. -/
def AutoGPTNotion.pre_instruction (_self : AutoGPTNotion)
    (_messages : List Message) : Option (List Message) :=
  none

/-- can_handle_on_instruction (lines 173-179): returns False. -/
def AutoGPTNotion.can_handle_on_instruction (_self : AutoGPTNotion) : Bool :=
  false

/-- on_instruction (lines 181-190): body is pass, returns None. -/
def AutoGPTNotion.on_instruction (_self : AutoGPTNotion)
    (_messages : List Message) : Option String :=
  none

/-- can_handle_post_instruction (lines 192-198): returns False. -/
def AutoGPTNotion.can_handle_post_instruction (_self : AutoGPTNotion) : Bool :=
  false

/-- post_instruction (lines 200-209): body is pass, returns None. -/
def AutoGPTNotion.post_instruction (_self : AutoGPTNotion)
    (_response : String) : Option String :=
  none

/-- can_handle_pre_command (lines 211-217): returns False. -/
def AutoGPTNotion.can_handle_pre_command (_self : AutoGPTNotion) : Bool :=
  false

/-- pre_command (lines 219-231): body is pass, returns None. Arbitrary
argument values (Any in the source) are a type parameter. -/
def AutoGPTNotion.pre_command {Val : Type} (_self : AutoGPTNotion)
    (_command_name : String) (_arguments : List (String × Val)) :
    Option (String × List (String × Val)) :=
  none

/-- can_handle_post_command (lines 233-239): returns False. -/
def AutoGPTNotion.can_handle_post_command (_self : AutoGPTNotion) : Bool :=
  false

/-- post_command (lines 241-251): body is pass, returns None. -/
def AutoGPTNotion.post_command (_self : AutoGPTNotion)
    (_command_name : String) (_response : String) : Option String :=
  none

/-- can_handle_chat_completion (lines 253-267): returns False for every
combination of arguments. -/
def AutoGPTNotion.can_handle_chat_completion {Val : Type}
    (_self : AutoGPTNotion) (_messages : List (Val × Val)) (_model : String)
    (_temperature : Val) (_max_tokens : Int) : Bool :=
  false

/-- handle_chat_completion (lines 269-283): body is pass, returns None. -/
def AutoGPTNotion.handle_chat_completion {Val : Type}
    (_self : AutoGPTNotion) (_messages : List Message) (_model : String)
    (_temperature : Val) (_max_tokens : Int) : Option String :=
  none

/-- can_handle_text_embedding (lines 285-288): returns False. -/
def AutoGPTNotion.can_handle_text_embedding (_self : AutoGPTNotion)
    (_text : String) : Bool :=
  false

/-- handle_text_embedding (lines 290-293): body is pass, returns None. -/
def AutoGPTNotion.handle_text_embedding {Val : Type} (_self : AutoGPTNotion)
    (_text : String) : Option (List Val) :=
  none

/-- can_handle_user_input (lines 295-296): returns False. -/
def AutoGPTNotion.can_handle_user_input (_self : AutoGPTNotion)
    (_user_input : String) : Bool :=
  false

/-- user_input (lines 298-299): returns its argument unchanged. -/
def AutoGPTNotion.user_input (_self : AutoGPTNotion)
    (user_input : String) : String :=
  user_input

/-- can_handle_report (lines 301-302): returns False. -/
def AutoGPTNotion.can_handle_report (_self : AutoGPTNotion) : Bool :=
  false

/-- report (lines 304-305): body is pass, returns None. -/
def AutoGPTNotion.report (_self : AutoGPTNotion) (_message : String) :
    Unit :=
  ()

/-- One lifecycle invocation on the adapter, with its arguments: every
hook method and every capability predicate of the class, so that whole
call histories can be examined. Val stands for the arbitrary values
(Any in the source) some hooks receive. -/
inductive HookCall (Val : Type) where
  | on_response (response : String)
  | post_prompt (prompt : PromptGenerator Val)
  | on_planning (prompt : PromptGenerator Val) (messages : List Message)
  | post_planning (response : String)
  | pre_instruction (messages : List Message)
  | on_instruction (messages : List Message)
  | post_instruction (response : String)
  | pre_command (command_name : String) (arguments : List (String × Val))
  | post_command (command_name : String) (response : String)
  | handle_chat_completion (messages : List Message) (model : String)
      (temperature : Val) (max_tokens : Int)
  | handle_text_embedding (text : String)
  | user_input (ui : String)
  | report (message : String)
  | can_handle_on_response
  | can_handle_post_prompt
  | can_handle_on_planning
  | can_handle_post_planning
  | can_handle_pre_instruction
  | can_handle_on_instruction
  | can_handle_post_instruction
  | can_handle_pre_command
  | can_handle_post_command
  | can_handle_chat_completion (messages : List (Val × Val)) (model : String)
      (temperature : Val) (max_tokens : Int)
  | can_handle_text_embedding (text : String)
  | can_handle_user_input (ui : String)
  | can_handle_report

/-- Executes one lifecycle invocation against the adapter state, in a
process with environment env: yields the adapter state afterwards together
with the trace of environment keys the invocation read. Each arm invokes
the translated method; no method of the class assigns an attribute of self
or calls os.getenv, so each arm returns the state unchanged and an empty
read trace. -/
def stepE {Val : Type} (s : AutoGPTNotion) (c : HookCall Val) (_env : Env) :
    AutoGPTNotion × List String :=
  match c with
  | .on_response r => let _ := s.on_response r; (s, [])
  | .post_prompt p =>
      let _ := AutoGPTNotion.post_prompt PromptGenerator.add_command s p
      (s, [])
  | .on_planning p ms => let _ := s.on_planning p ms; (s, [])
  | .post_planning r => let _ := s.post_planning r; (s, [])
  | .pre_instruction ms => let _ := s.pre_instruction ms; (s, [])
  | .on_instruction ms => let _ := s.on_instruction ms; (s, [])
  | .post_instruction r => let _ := s.post_instruction r; (s, [])
  | .pre_command n a => let _ := s.pre_command n a; (s, [])
  | .post_command n r => let _ := s.post_command n r; (s, [])
  | .handle_chat_completion ms m t mt =>
      let _ := s.handle_chat_completion ms m t mt; (s, [])
  | .handle_text_embedding t =>
      let _ := @AutoGPTNotion.handle_text_embedding Val s t; (s, [])
  | .user_input u => let _ := s.user_input u; (s, [])
  | .report m => let _ := s.report m; (s, [])
  | .can_handle_on_response => let _ := s.can_handle_on_response; (s, [])
  | .can_handle_post_prompt => let _ := s.can_handle_post_prompt; (s, [])
  | .can_handle_on_planning => let _ := s.can_handle_on_planning; (s, [])
  | .can_handle_post_planning => let _ := s.can_handle_post_planning; (s, [])
  | .can_handle_pre_instruction =>
      let _ := s.can_handle_pre_instruction; (s, [])
  | .can_handle_on_instruction =>
      let _ := s.can_handle_on_instruction; (s, [])
  | .can_handle_post_instruction =>
      let _ := s.can_handle_post_instruction; (s, [])
  | .can_handle_pre_command => let _ := s.can_handle_pre_command; (s, [])
  | .can_handle_post_command => let _ := s.can_handle_post_command; (s, [])
  | .can_handle_chat_completion ms m t mt =>
      let _ := s.can_handle_chat_completion ms m t mt; (s, [])
  | .can_handle_text_embedding t =>
      let _ := s.can_handle_text_embedding t; (s, [])
  | .can_handle_user_input u => let _ := s.can_handle_user_input u; (s, [])
  | .can_handle_report => let _ := s.can_handle_report; (s, [])

/-- Executes a whole sequence of lifecycle invocations, accumulating the
trace of environment keys read along the way. -/
def runE {Val : Type} (s : AutoGPTNotion) (calls : List (HookCall Val))
    (env : Env) : AutoGPTNotion × List String :=
  match calls with
  | [] => (s, [])
  | c :: rest =>
      let r := stepE s c env
      let r2 := runE r.1 rest env
      (r2.1, r.2 ++ r2.2)

/-- Exception-aware translation of post_prompt (lines 55-114): the import
of the handler module (lines 65-71) and each add_command call may raise;
the method contains no try/except, so the first failure aborts the method
with that very exception. H is whatever the import produces. -/
def AutoGPTNotion.post_promptE {P H ε : Type} (importHandlers : Except ε H)
    (add_command : P → String → String → List (String × String) → HandlerRef →
      Except ε P)
    (_self : AutoGPTNotion) (prompt : P) : Except ε P :=
  match importHandlers with
  | .error e => .error e
  | .ok _ =>
    match add_command prompt "notion_create_page"
        "Create a new Notion page"
        [("title", "<title>"), ("summary", "<summary>"),
         ("tags", "<list_of_tags>"), ("content", "<content>")]
        HandlerRef.create_page with
    | .error e => .error e
    | .ok prompt =>
      match add_command prompt "notion_get_all_pages"
          "Retrieves all pages properties from a database"
          []
          HandlerRef.get_all_pages with
      | .error e => .error e
      | .ok prompt =>
        match add_command prompt "notion_append_page"
            "Append page content by id"
            [("page_id", "<page_id>"), ("content", "<content>")]
            HandlerRef.append_page with
        | .error e => .error e
        | .ok prompt =>
          match add_command prompt "notion_retrieve_page"
              "Retrieves a page\x27s properties and content by id"
              [("page_id", "<page_id>")]
              HandlerRef.retrieve_page with
          | .error e => .error e
          | .ok prompt =>
            match add_command prompt "notion_update_page_properties"
                "Update a page\x27s properties by id"
                [("page_id", "<page_id>"), ("title", "<title>"),
                 ("summary", "<summary>"), ("tags", "<list_of_tags>")]
                HandlerRef.update_page_properties with
            | .error e => .error e
            | .ok prompt => .ok prompt

/-- Exception-aware translation of __init__ (lines 26-33): the external
client constructor Client(auth=...) may raise; __init__ contains no
try/except, so such an exception aborts construction unchanged. -/
def AutoGPTNotion.initE {ε : Type}
    (mkClient : Option String → Except ε Client) (env : Env) :
    Except ε (AutoGPTNotion × List String) :=
  let t := getenv env "NOTION_TOKEN"
  let d := getenv env "NOTION_DATABASE_ID"
  match mkClient t.1 with
  | .error e => .error e
  | .ok c =>
    .ok ({ _name := "autogpt-notion"
         , _version := "0.1.0"
         , _description := "Notion API integrations using notion-sdk-py"
         , notion_token := t.1
         , database_id := d.1
         , notion := c }, t.2 ++ d.2)

/-- Errors raised by the filesystem model. -/
inductive FsError where
  | fileNotFound (path : String)
deriving Repr, DecidableEq

/-- A filesystem: a map from paths to file contents. -/
abbrev FileSystem := String → Option String

/-- Model of the path join Path(os.getcwd()) / ".env" (line 12). -/
def joinPath (dir file : String) : String :=
  dir ++ "/" ++ file

/-- Model of Python open(path, "r"): the contents of the file, or
FileNotFoundError when no such file exists. -/
def openFile (fs : FileSystem) (path : String) : Except FsError String :=
  match fs path with
  | some content => .ok content
  | none => .error (.fileNotFound path)

/-- Translation of the module-level statements (lines 12-13): on module
load, open the file .env in the current working directory and feed it to
load_dotenv. load_dotenv is external; what matters here is that open runs
first and its FileNotFoundError, if any, escapes the module load. -/
def moduleLoad (fs : FileSystem) (cwd : String) : Except FsError Unit :=
  match openFile fs (joinPath cwd ".env") with
  | .error e => .error e
  | .ok _fp => .ok ()

/-- Loading the module and then constructing an adapter: the class body
only exists after the module-level statements succeed, so construction is
reachable only when moduleLoad succeeds. -/
def loadAndConstruct (fs : FileSystem) (cwd : String) (env : Env) :
    Except FsError AutoGPTNotion :=
  match moduleLoad fs cwd with
  | .error e => .error e
  | .ok _ => .ok (AutoGPTNotion.init env).1

/-- A concrete adapter, constructed in an empty environment; used to
instantiate universally quantified theorems at a concrete input. -/
def sampleAdapter : AutoGPTNotion :=
  (AutoGPTNotion.init (fun _ => none)).1

theorem stepE_eq {Val : Type} (s : AutoGPTNotion) (c : HookCall Val)
    (env : Env) : stepE s c env = (s, []) := by
  cases c <;> rfl

theorem runE_eq {Val : Type} (s : AutoGPTNotion) (calls : List (HookCall Val))
    (env : Env) : runE s calls env = (s, []) := by
  induction calls generalizing s with
  | nil => rfl
  | cons c rest ih => simp [runE, stepE_eq, ih]

/-- C1: for every prompt object, post_prompt issues exactly five
add_command registrations, named notion_create_page, notion_get_all_pages,
notion_append_page, notion_retrieve_page, notion_update_page_properties,
whose argument-template keys are exactly title/summary/tags/content, none,
page_id/content, page_id, and page_id/title/summary/tags, in that order. -/
theorem post_prompt_registers_five_commands (s : AutoGPTNotion) :
    (postPromptTrace s).length = 5
    ∧ (postPromptTrace s).map CommandRegistration.name =
        ["notion_create_page", "notion_get_all_pages", "notion_append_page",
         "notion_retrieve_page", "notion_update_page_properties"]
    ∧ (postPromptTrace s).map (fun r => r.args.map Prod.fst) =
        [["title", "summary", "tags", "content"], [],
         ["page_id", "content"], ["page_id"],
         ["page_id", "title", "summary", "tags"]] :=
  ⟨rfl, rfl, rfl⟩

/-- C2: post_prompt returns the threaded prompt object itself, whose
command registry is the old registry extended by exactly the five
registrations and whose remaining state is untouched, and the adapter
state is unchanged by the call. -/
theorem post_prompt_frame {Val : Type} (s : AutoGPTNotion)
    (cmds : List CommandRegistration) (r : Val) (env : Env) :
    AutoGPTNotion.post_prompt PromptGenerator.add_command s ⟨cmds, r⟩
      = ⟨cmds ++ postPromptTrace s, r⟩
    ∧ stepE s (HookCall.post_prompt ⟨cmds, r⟩) env = (s, []) := by
  refine ⟨?_, stepE_eq s _ env⟩
  simp [AutoGPTNotion.post_prompt, PromptGenerator.add_command,
    postPromptTrace]

/-- C3: user_input returns its argument unchanged for every input. -/
theorem user_input_identity (s : AutoGPTNotion) (x : String) :
    s.user_input x = x :=
  rfl

/-- C4: every lifecycle hook other than post_prompt and user_input has a
capability predicate that returns False for every input, and a handler
that returns None and leaves the adapter state unchanged for every
input. -/
theorem stub_hooks_inert (Val : Type) (s : AutoGPTNotion) :
    s.can_handle_on_response = false
    ∧ (∀ r : String, s.on_response r = none)
    ∧ s.can_handle_on_planning = false
    ∧ (∀ (p : PromptGenerator Val) (ms : List Message),
        s.on_planning p ms = none)
    ∧ s.can_handle_post_planning = false
    ∧ (∀ r : String, s.post_planning r = none)
    ∧ s.can_handle_pre_instruction = false
    ∧ (∀ ms : List Message, s.pre_instruction ms = none)
    ∧ s.can_handle_on_instruction = false
    ∧ (∀ ms : List Message, s.on_instruction ms = none)
    ∧ s.can_handle_post_instruction = false
    ∧ (∀ r : String, s.post_instruction r = none)
    ∧ s.can_handle_pre_command = false
    ∧ (∀ (n : String) (args : List (String × Val)),
        s.pre_command n args = none)
    ∧ s.can_handle_post_command = false
    ∧ (∀ n r : String, s.post_command n r = none)
    ∧ (∀ (ms : List (Val × Val)) (m : String) (t : Val) (mt : Int),
        s.can_handle_chat_completion ms m t mt = false)
    ∧ (∀ (ms : List Message) (m : String) (t : Val) (mt : Int),
        s.handle_chat_completion ms m t mt = none)
    ∧ (∀ t : String, s.can_handle_text_embedding t = false)
    ∧ (∀ t : String, @AutoGPTNotion.handle_text_embedding Val s t = none)
    ∧ s.can_handle_report = false
    ∧ (∀ m : String, s.report m = ())
    ∧ (∀ (env : Env) (c : HookCall Val), stepE s c env = (s, [])) :=
  ⟨rfl, fun _ => rfl, rfl, fun _ _ => rfl, rfl, fun _ => rfl, rfl,
   fun _ => rfl, rfl, fun _ => rfl, rfl, fun _ => rfl, rfl, fun _ _ => rfl,
   rfl, fun _ _ => rfl, fun _ _ _ _ => rfl, fun _ _ _ _ => rfl,
   fun _ => rfl, fun _ => rfl, rfl, fun _ => rfl,
   fun env c => stepE_eq s c env⟩

/-- C5 counterexample: can_handle_user_input is the constantly-false
predicate, so it does not answer positively for any adapter and input,
contrary to the claim that user_input is an exception to negative
capability negotiation. -/
theorem can_handle_user_input_refuted :
    AutoGPTNotion.can_handle_user_input = fun _ _ => false :=
  rfl

/-- C5 amended: can_handle_user_input, like every other stub hook
predicate, returns False for every input; user_input differs from the
other stubs only in that its handler returns its argument unchanged
instead of returning None. -/
theorem user_input_stub_amended (s : AutoGPTNotion) (x : String) :
    s.can_handle_user_input x = false ∧ s.user_input x = x :=
  ⟨rfl, rfl⟩

/-- C6: construction reads exactly the two keys NOTION_TOKEN and
NOTION_DATABASE_ID from the environment, once each; it stores both values
verbatim, instantiates the client with the token, and no later lifecycle
invocation reads the environment. -/
theorem construction_reads_env_once (env : Env) :
    (AutoGPTNotion.init env).2 = ["NOTION_TOKEN", "NOTION_DATABASE_ID"]
    ∧ (AutoGPTNotion.init env).1.notion_token = env "NOTION_TOKEN"
    ∧ (AutoGPTNotion.init env).1.database_id = env "NOTION_DATABASE_ID"
    ∧ (AutoGPTNotion.init env).1.notion = { auth := env "NOTION_TOKEN" }
    ∧ ∀ (Val : Type) (s : AutoGPTNotion) (calls : List (HookCall Val)),
        (runE s calls env).2 = [] := by
  refine ⟨rfl, rfl, rfl, rfl, ?_⟩
  intro Val s calls
  rw [runE_eq]

/-- C7: the adapter catches no exception: an exception from the handler
module load propagates verbatim out of post_prompt; an exception from
any add_command call propagates verbatim out of post_prompt; an exception
from the client constructor propagates verbatim out of construction. -/
theorem adapter_propagates_errors {P H ε : Type} (e : ε) (h0 : H)
    (ac : P → String → String → List (String × String) → HandlerRef →
      Except ε P)
    (s : AutoGPTNotion) (p : P)
    (mkClient : Option String → Except ε Client) (env : Env) :
    (AutoGPTNotion.post_promptE (Except.error e : Except ε H) ac s p
      = Except.error e)
    ∧ ((∀ (q : P) (n d : String) (a : List (String × String))
          (hr : HandlerRef), ac q n d a hr = Except.error e) →
        AutoGPTNotion.post_promptE (Except.ok h0) ac s p = Except.error e)
    ∧ (mkClient (env "NOTION_TOKEN") = Except.error e →
        AutoGPTNotion.initE mkClient env = Except.error e) := by
  refine ⟨rfl, ?_, ?_⟩
  · intro h
    simp [AutoGPTNotion.post_promptE, h]
  · intro h
    simp [AutoGPTNotion.initE, getenv, h]

theorem adapter_propagates_errors_witness :
    (AutoGPTNotion.post_promptE (Except.error "boom" : Except String Unit)
        (fun (_ : Unit) _ _ _ _ => Except.error "boom") sampleAdapter ()
      = Except.error "boom")
    ∧ (AutoGPTNotion.post_promptE (Except.ok () : Except String Unit)
        (fun (_ : Unit) _ _ _ _ => Except.error "boom") sampleAdapter ()
      = Except.error "boom")
    ∧ (AutoGPTNotion.initE
        (fun _ => (Except.error "boom" : Except String Client))
        (fun _ => none)
      = Except.error "boom") := by
  have h := @adapter_propagates_errors Unit Unit String "boom" ()
    (fun _ _ _ _ _ => Except.error "boom") sampleAdapter ()
    (fun _ => Except.error "boom") (fun _ => none)
  exact ⟨h.1, h.2.1 (fun _ _ _ _ _ => rfl), h.2.2 rfl⟩

/-- C8: every lifecycle hook and capability predicate is stateless: any
sequence of invocations leaves the adapter fields unchanged and reads no
environment key, and any invocation behaves after any history exactly as
it does on the freshly constructed state. -/
theorem hooks_stateless {Val : Type} (env : Env) (s : AutoGPTNotion)
    (calls : List (HookCall Val)) :
    runE s calls env = (s, [])
    ∧ ∀ c : HookCall Val,
        stepE (runE s calls env).1 c env = stepE s c env := by
  refine ⟨runE_eq s calls env, ?_⟩
  intro c
  rw [runE_eq]

/-- C9: can_handle_post_prompt returns True unconditionally, for every
adapter state. -/
theorem can_handle_post_prompt_true (s : AutoGPTNotion) :
    s.can_handle_post_prompt = true :=
  rfl

/-- C10: module load opens the file .env in the current working directory;
when that file does not exist, the load itself fails with
FileNotFoundError, and consequently no adapter can be constructed. -/
theorem module_load_requires_dotenv (fs : FileSystem) (cwd : String)
    (env : Env) (h : fs (joinPath cwd ".env") = none) :
    moduleLoad fs cwd
      = Except.error (FsError.fileNotFound (joinPath cwd ".env"))
    ∧ loadAndConstruct fs cwd env
      = Except.error (FsError.fileNotFound (joinPath cwd ".env")) := by
  refine ⟨?_, ?_⟩
  · simp [moduleLoad, openFile, h]
  · simp [loadAndConstruct, moduleLoad, openFile, h]

theorem module_load_requires_dotenv_witness :
    ((fun _ => none : FileSystem) (joinPath "/app" ".env") = none)
    ∧ moduleLoad (fun _ => none) "/app"
      = Except.error (FsError.fileNotFound (joinPath "/app" ".env"))
    ∧ loadAndConstruct (fun _ => none) "/app" (fun _ => none)
      = Except.error (FsError.fileNotFound (joinPath "/app" ".env")) := by
  have h := module_load_requires_dotenv (fun _ => none) "/app"
    (fun _ => none) rfl
  exact ⟨rfl, h.1, h.2⟩
